import Mathlib

/-!
Shallow embedding of `pyqt_fit/nonparam_regression.py` (class `NonParamRegression`)
and proofs about its behaviour.

Modelling conventions:
- A numpy `ndarray` is modelled by its shape (a list of axis lengths) together
  with its flat data, whose entries are the extended values `Val` (finite
  numbers, `+inf`, `-inf`).  All claims under study depend only on shapes and
  on the infinity markers, never on float arithmetic.
- Python exceptions are modelled with `Except PyErr`.  A failing `assert`
  raises `PyErr.assertionError` with the source's message; an unbound name
  raises `PyErr.nameError` with that name.
- External collaborator objects (kernel instances, kernel classes, method
  objects, bandwidth/covariance callables) live in modules outside the sources
  under study (`pyqt_fit.kernels`, `pyqt_fit.npr_methods`); the class treats
  them as opaque values, so they are modelled as opaque identifiers (`Nat`).
-/

set_option autoImplicit false

/-- Extended float values: finite numbers, plus the infinities used for the
default (unbounded) domain bounds. -/
inductive Val where
  | num : Int → Val
  | posInf : Val
  | negInf : Val
  deriving DecidableEq

/-- A numpy array: shape plus flat data.  `data.length = shape.prod` holds for
every array numpy itself produces, but the embedding does not bake the
invariant in; the reshape operations below check sizes exactly where numpy
does. -/
structure NDArray where
  shape : List Nat
  data : List Val
  deriving DecidableEq

/-- `np.atleast_1d`: a 0-d array becomes a 1-element vector, anything else is
returned unchanged. -/
def np_atleast_1d (a : NDArray) : NDArray :=
  match a.shape with
  | [] => { shape := [1], data := a.data }
  | _ => a

/-- `np.atleast_2d`: a 0-d array becomes 1×1, a 1-d array of length n becomes a
single-row 1×n matrix, anything else is returned unchanged. -/
def np_atleast_2d (a : NDArray) : NDArray :=
  match a.shape with
  | [] => { shape := [1, 1], data := a.data }
  | [n] => { shape := [1, n], data := a.data }
  | _ => a

/-- Python errors raised by the code under study. -/
inductive PyErr where
  | nameError : String → PyErr
  | assertionError : String → PyErr
  | valueError : String → PyErr
  deriving DecidableEq

/-- Reassigning the shape of an array (numpy's `a.reshape(...)` and in-place
`a.shape = ...`): succeeds exactly when the total size is preserved, else
raises `ValueError`.  (The in-place form can additionally fail on
non-contiguous arrays; no claim depends on memory layout.) -/
def np_reshape (a : NDArray) (sh : List Nat) : Except PyErr NDArray :=
  if a.data.length = sh.prod then
    Except.ok { a with shape := sh }
  else
    Except.error (PyErr.valueError "cannot reshape array")

/-- A bandwidth or covariance argument: Python distinguishes the two cases with
`callable(...)`, so the embedding tags them.  Non-callable values are scalars
or matrices; only their presence matters to the claims, so a single `Val`
stands for them.  Callables are opaque identifiers. -/
inductive BwCov where
  | val : Val → BwCov
  | call : Nat → BwCov
  deriving DecidableEq

/-- State of a `NonParamRegression` instance: the attributes `__init__`
initialises, plus `extra`, the public attributes dynamically added to the
instance dictionary by `setattr` for keyword arguments that match no
property (Python objects accept such assignments silently). -/
structure NonParamRegression where
  _xdata : NDArray
  _ydata : NDArray
  _kernel_class : Option Nat
  _covariance : Option Val
  _cov_fct : Option Nat
  _bandwidth : Option Val
  _bw_fct : Option Nat
  _method : Option Nat
  _fitted : Bool
  _kernel : Option Nat
  _lower : Option NDArray
  _upper : Option NDArray
  _n : Option Nat
  _d : Option Nat
  extra : List (String × Nat)
  deriving DecidableEq

/-- `kernels.normal_kernel`, the default kernel class (external module),
as an opaque identifier. -/
def normal_kernel : Nat := 0

/-- `npr_methods.default_method`, the default regression method (external
module), as an opaque identifier. -/
def default_method : Nat := 1

/-- Setter of the `kernel` property: clears `_kernel_class`, stores the
instance. -/
def set_kernel (s : NonParamRegression) (k : Nat) : NonParamRegression :=
  { s with _kernel_class := none, _kernel := some k }

/-- Setter of the `kernel_class` property: clears `_kernel`, stores the
class. -/
def set_kernel_class (s : NonParamRegression) (k : Nat) : NonParamRegression :=
  { s with _kernel := none, _kernel_class := some k }

/-- Setter of the `bandwidth` property: clears both callables, then either
stores the callable, or stores the value and clears `_covariance`. -/
def set_bandwidth (s : NonParamRegression) (bw : BwCov) : NonParamRegression :=
  let s := { s with _bw_fct := none, _cov_fct := none }
  match bw with
  | BwCov.call f => { s with _bw_fct := some f }
  | BwCov.val v => { s with _bandwidth := some v, _covariance := none }

/-- Setter of the `covariance` property: clears both callables, then either
stores the callable, or stores the value and clears `_bandwidth`. -/
def set_covariance (s : NonParamRegression) (cov : BwCov) : NonParamRegression :=
  let s := { s with _bw_fct := none, _cov_fct := none }
  match cov with
  | BwCov.call f => { s with _cov_fct := some f }
  | BwCov.val v => { s with _covariance := some v, _bandwidth := none }

/-- Setter of the `lower` property: `np.atleast_1d` then
`assert len(l.shape) == 1`. -/
def set_lower (s : NonParamRegression) (l : NDArray) : Except PyErr NonParamRegression :=
  let l := np_atleast_1d l
  if l.shape.length = 1 then
    Except.ok { s with _lower := some l }
  else
    Except.error (PyErr.assertionError "The lower bound must be at most a 1D array")

/-- Deleter of the `lower` property: resets to `None` (the marker `fit`
replaces with the unbounded default). -/
def del_lower (s : NonParamRegression) : NonParamRegression :=
  { s with _lower := none }

/-- Setter of the `upper` property: `np.atleast_1d` then
`assert len(l.shape) == 1`. -/
def set_upper (s : NonParamRegression) (l : NDArray) : Except PyErr NonParamRegression :=
  let l := np_atleast_1d l
  if l.shape.length = 1 then
    Except.ok { s with _upper := some l }
  else
    Except.error (PyErr.assertionError "The upper bound must be at most a 1D array")

/-- Deleter of the `upper` property. -/
def del_upper (s : NonParamRegression) : NonParamRegression :=
  { s with _upper := none }

/-- Setter of the `xdata` property: `np.atleast_2d` then
`assert len(xd.shape) == 2`. -/
def set_xdata (s : NonParamRegression) (xd : NDArray) : Except PyErr NonParamRegression :=
  let xd := np_atleast_2d xd
  if xd.shape.length = 2 then
    Except.ok { s with _xdata := xd }
  else
    Except.error (PyErr.assertionError "The xdata must be at most a 2D array")

/-- Setter of the `ydata` property: `np.atleast_1d` then
`assert len(yd.shape) == 1`. -/
def set_ydata (s : NonParamRegression) (yd : NDArray) : Except PyErr NonParamRegression :=
  let yd := np_atleast_1d yd
  if yd.shape.length = 1 then
    Except.ok { s with _ydata := yd }
  else
    Except.error (PyErr.assertionError "The ydata must be at most a 1D array")

/-- Setter of the `method` property: plain store. -/
def set_method (s : NonParamRegression) (m : Nat) : NonParamRegression :=
  { s with _method := some m }

/-- A keyword argument accepted by the `setattr` loop in `__init__`.  Each
constructor names the property the assignment dispatches to; `other` is a key
matching no property of the class, for which `setattr` silently creates a new
public instance attribute. -/
inductive KwArg where
  | kernel : Nat → KwArg
  | kernel_class : Nat → KwArg
  | bandwidth : BwCov → KwArg
  | covariance : BwCov → KwArg
  | method : Nat → KwArg
  | lower : NDArray → KwArg
  | upper : NDArray → KwArg
  | xdata : NDArray → KwArg
  | ydata : NDArray → KwArg
  | other : String → Nat → KwArg
  deriving DecidableEq

/-- One iteration of the `for kw in kwords: setattr(self, kw, kwords[kw])`
loop: dispatch to the property setter named by the key, or add a public
attribute for an unrecognized key. -/
def setattr_kw (s : NonParamRegression) (kw : KwArg) : Except PyErr NonParamRegression :=
  match kw with
  | KwArg.kernel k => Except.ok (set_kernel s k)
  | KwArg.kernel_class k => Except.ok (set_kernel_class s k)
  | KwArg.bandwidth v => Except.ok (set_bandwidth s v)
  | KwArg.covariance v => Except.ok (set_covariance s v)
  | KwArg.method m => Except.ok (set_method s m)
  | KwArg.lower a => set_lower s a
  | KwArg.upper a => set_upper s a
  | KwArg.xdata a => set_xdata s a
  | KwArg.ydata a => set_ydata s a
  | KwArg.other name v => Except.ok { s with extra := s.extra ++ [(name, v)] }

/-- `NonParamRegression.__init__`: coerces `xdata` with `np.atleast_2d` and
`ydata` with `np.atleast_1d` (direct private-attribute assignment, no rank
check), initialises every private attribute, runs the `setattr` loop over the
keyword arguments, then installs the default kernel class if no kernel was
given and the default method if no method was given. -/
def __init__ (xdata ydata : NDArray) (kwords : List KwArg) :
    Except PyErr NonParamRegression := do
  let s : NonParamRegression :=
    { _xdata := np_atleast_2d xdata
      _ydata := np_atleast_1d ydata
      _kernel_class := none
      _covariance := none
      _cov_fct := none
      _bandwidth := none
      _bw_fct := none
      _method := none
      _fitted := false
      _kernel := none
      _lower := none
      _upper := none
      _n := none
      _d := none
      extra := [] }
  let s ← kwords.foldlM setattr_kw s
  let s := if s._kernel = none then set_kernel_class s normal_kernel else s
  let s := if s._method = none then { s with _method := some default_method } else s
  Except.ok s

/-- `NonParamRegression.fit`, as written.  Its first statement is the
expression `D, N == self._xdata.shape`, a tuple expression (not an
assignment) whose first element is the unbound name `D`; evaluating it raises
`NameError` before anything else in the body can run, so every call to `fit`
fails here. -/
def fit (_s : NonParamRegression) : Except PyErr NonParamRegression :=
  Except.error (PyErr.nameError "D")

/-- `NonParamRegression.fit` with the first statement read as the tuple
assignment `D, N = self._xdata.shape` (the reading the rest of the body, the
docstrings and the spec all presuppose): unpack the shape into `D, N`
(a `ValueError` if `xdata` is not 2-d), assert `ydata` has `N` entries,
default `_lower` to `-inf * ones((N,))` and `_upper` to `inf * ones((N,))`
when unset — note the sizes are the sample count `N`, not the dimension `D` —
record `_n` and `_d`, delegate to `self._method.fit(self)` (an external
collaborator that per the method contract stores its fitted state privately
and leaves the model's attributes alone), and set `_fitted`. -/
def fit_intended (s : NonParamRegression) : Except PyErr NonParamRegression :=
  match s._xdata.shape with
  | [D, N] =>
    if s._ydata.shape.headD 0 = N then
      let s := if s._lower = none then
          { s with _lower := some { shape := [N], data := List.replicate N Val.negInf } }
        else s
      let s := if s._upper = none then
          { s with _upper := some { shape := [N], data := List.replicate N Val.posInf } }
        else s
      Except.ok { s with _n := some N, _d := some D, _fitted := true }
    else
      Except.error (PyErr.assertionError "There must be as many points for X and Y")
  | _ => Except.error (PyErr.valueError "too many values to unpack")

/-- `NonParamRegression.evaluate`.  `meth` stands for the external
`self._method.evaluate(self, points, out)` collaborator, which fills `out` in
place — in-place writes cannot change shape or size, and the concrete method
objects live outside the sources under study, so it is a parameter here.
The body: record the input shape, assert rank < 3, promote a scalar to a 1×1
matrix and a length-M vector to a 1×M matrix; when `out` is `None` the
allocation line `np.empty((points.shape[-1],), dtype=type(y.dtype.type() + 0.))`
evaluates the unbound name `y` and raises `NameError`; a supplied `out` is
reshaped in place to `(points.shape[-1],)`; after the method call the result
shape is set to `real_shape[-1:]` (the empty shape for scalar input). -/
def evaluate (meth : NonParamRegression → NDArray → NDArray → NDArray)
    (s : NonParamRegression) (pts : NDArray) (out : Option NDArray) :
    Except PyErr NDArray := do
  let real_shape := pts.shape
  if real_shape.length ≥ 3 then
    throw (PyErr.assertionError "The input points can be at most a 2D array")
  let points ←
    if real_shape.length = 0 then np_reshape pts [1, 1]
    else if real_shape.length = 1 then np_reshape pts [1, real_shape.headD 0]
    else pure pts
  let out ←
    match out with
    | none => throw (PyErr.nameError "y")
    | some b => np_reshape b [points.shape.getLastD 0]
  let out := meth s points out
  np_reshape out (real_shape.drop (real_shape.length - 1))

/-- A Python object reference as seen by `NonParamRegression.copy`: its
identity (an address) and whether it has a `copy` attribute — the source
attempts `obj.copy()` and falls back to sharing on `AttributeError`. -/
structure PyObjRef where
  addr : Nat
  hasCopy : Bool
  deriving DecidableEq

/-- An entry of the copied instance dictionary: either a fresh clone of the
object at the given address (allocated by `obj.copy()`), or the very same
reference shared with the original. -/
inductive CopiedVal where
  | cloneOf : Nat → CopiedVal
  | sameRef : Nat → CopiedVal
  deriving DecidableEq

/-- The filter in `NonParamRegression.copy`:
`len(m) > 1 and m[0] == '_' and m[1] != '_'`, i.e. the name starts with
exactly one underscore (and has at least one more character). -/
def isPrivateName (m : String) : Bool :=
  match m.toList with
  | '_' :: c :: _ => !(c == '_')
  | _ => false

/-- Copy of one attribute: `obj.copy()` when the object has one (a fresh
clone), otherwise the same reference (`except AttributeError` branch). -/
def copyAttr (obj : PyObjRef) : CopiedVal :=
  if obj.hasCopy then CopiedVal.cloneOf obj.addr else CopiedVal.sameRef obj.addr

/-- `NonParamRegression.copy`: iterate over `self.__dict__` (modelled as an
association list of attribute name to object reference) and transfer exactly
the attributes whose names pass `isPrivateName`, each through `copyAttr`. -/
def copy_dict : List (String × PyObjRef) → List (String × CopiedVal)
  | [] => []
  | (m, obj) :: rest =>
    if isPrivateName m then (m, copyAttr obj) :: copy_dict rest
    else copy_dict rest

/-! Concrete fixtures used by the theorems below. -/

/-- A 1×2 `xdata` matrix (domain dimension D = 1, sample count N = 2). -/
def x12 : NDArray := { shape := [1, 2], data := [Val.num 1, Val.num 2] }

/-- A matching `ydata` vector of length 2. -/
def y2 : NDArray := { shape := [2], data := [Val.num 3, Val.num 4] }

/-- A mismatched `ydata` vector of length 3. -/
def y3 : NDArray := { shape := [3], data := [Val.num 3, Val.num 4, Val.num 5] }

/-- A rank-3 `xdata` array of shape 2×2×2. -/
def x222 : NDArray := { shape := [2, 2, 2], data := List.replicate 8 (Val.num 0) }

/-- A rank-2 `ydata` array of shape 2×2. -/
def y22 : NDArray := { shape := [2, 2], data := List.replicate 4 (Val.num 0) }

/-- The state produced by constructing with `x12`, `y2` and no keyword
arguments: starting point of the setter experiments. -/
def m0 : NonParamRegression :=
  { _xdata := x12
    _ydata := y2
    _kernel_class := some normal_kernel
    _covariance := none
    _cov_fct := none
    _bandwidth := none
    _bw_fct := none
    _method := some default_method
    _fitted := false
    _kernel := none
    _lower := none
    _upper := none
    _n := none
    _d := none
    extra := [] }

/-- A 0-d (scalar) query point. -/
def scalarPt : NDArray := { shape := [], data := [Val.num 3] }

/-- A 1-d query vector of length 2. -/
def vec2 : NDArray := { shape := [2], data := [Val.num 1, Val.num 2] }

/-- A 1×2 query matrix (D = 1, M = 2). -/
def mat12 : NDArray := { shape := [1, 2], data := [Val.num 1, Val.num 2] }

/-- Output buffers of sizes 1, 2 and 3. -/
def buf1 : NDArray := { shape := [1], data := [Val.num 0] }

/-- Output buffer of size 2. -/
def buf2 : NDArray := { shape := [2], data := [Val.num 0, Val.num 0] }

/-- Output buffer of size 3 (not reshape-compatible with 2 query points). -/
def buf3 : NDArray := { shape := [3], data := [Val.num 0, Val.num 0, Val.num 0] }

/-- A method evaluation that writes nothing: it stands for an arbitrary
in-place fill of the output buffer, which cannot change the buffer's shape or
size. -/
def meth_id : NonParamRegression → NDArray → NDArray → NDArray :=
  fun _ _ out => out

/-! Claim theorems. -/

/-- C1: the claim says `fit()` defaults unset `lower`/`upper` bounds to
±infinity vectors of length D (the domain dimension).  The code does not:
`fit` raises `NameError` at its first statement (`D, N == self._xdata.shape`
is a tuple expression over unbound names, not an assignment), and even under
the intended unpacking the default bounds are built with `np.ones((N,))`,
i.e. sized by the sample count N.  On a model with D = 1, N = 2 and unset
bounds, `fit` errors, and the intended-unpacking variant produces bounds of
length 2 = N ≠ 1 = D. -/
theorem C1_default_bounds_sized_by_N_not_D :
    ∃ s, __init__ x12 y2 [] = Except.ok s
      ∧ s._xdata.shape = [1, 2]
      ∧ s._lower = none
      ∧ fit s = Except.error (PyErr.nameError "D")
      ∧ ∃ t, fit_intended s = Except.ok t
          ∧ t._lower = some { shape := [2], data := [Val.negInf, Val.negInf] }
          ∧ t._upper = some { shape := [2], data := [Val.posInf, Val.posInf] } := by
  exact ⟨_, rfl, rfl, rfl, rfl, _, rfl, rfl, rfl⟩

/-- C4: the claim says a sample-count mismatch between `xdata` (D×N) and
`ydata` is detected at `fit()` with `DimensionMismatch`, and not at
construction.  Construction indeed does not fail on mismatched data, but
`fit` raises `NameError` at its first statement, before the sample-count
assertion (the intended `DimensionMismatch`) can run; under the intended
unpacking the assertion would fire.  Concretely with a 1×2 `xdata` and a
length-3 `ydata`. -/
theorem C4_mismatch_fit_raises_NameError_not_DimensionMismatch :
    ∃ s, __init__ x12 y3 [] = Except.ok s
      ∧ fit s = Except.error (PyErr.nameError "D")
      ∧ fit_intended s
          = Except.error (PyErr.assertionError "There must be as many points for X and Y") := by
  exact ⟨_, rfl, rfl, rfl⟩

/-- C2 counterexample: the claim says assigning a callable to `bandwidth`
clears a previously set fixed `covariance` value.  It does not: after
`covariance = 5` then `bandwidth = <callable>`, the fixed covariance value is
still stored alongside the new bandwidth callable. -/
theorem C2_callable_bandwidth_keeps_covariance_value :
    (set_bandwidth (set_covariance m0 (BwCov.val (Val.num 5))) (BwCov.call 7))._covariance
        = some (Val.num 5)
    ∧ (set_bandwidth (set_covariance m0 (BwCov.val (Val.num 5))) (BwCov.call 7))._bw_fct
        = some 7 := by
  exact ⟨rfl, rfl⟩

/-- C2 amended: assigning a non-callable `bandwidth` clears both callables and
the fixed `covariance` value (and symmetrically for `covariance`); assigning
a callable clears both callables and stores the new one, but leaves both
fixed values untouched. -/
theorem C2_bandwidth_covariance_exclusion_amended :
    ∀ (s : NonParamRegression) (v : Val) (f : Nat),
      (set_bandwidth s (BwCov.val v))._bw_fct = none
      ∧ (set_bandwidth s (BwCov.val v))._cov_fct = none
      ∧ (set_bandwidth s (BwCov.val v))._bandwidth = some v
      ∧ (set_bandwidth s (BwCov.val v))._covariance = none
      ∧ (set_bandwidth s (BwCov.call f))._bw_fct = some f
      ∧ (set_bandwidth s (BwCov.call f))._cov_fct = none
      ∧ (set_bandwidth s (BwCov.call f))._bandwidth = s._bandwidth
      ∧ (set_bandwidth s (BwCov.call f))._covariance = s._covariance
      ∧ (set_covariance s (BwCov.val v))._bw_fct = none
      ∧ (set_covariance s (BwCov.val v))._cov_fct = none
      ∧ (set_covariance s (BwCov.val v))._covariance = some v
      ∧ (set_covariance s (BwCov.val v))._bandwidth = none
      ∧ (set_covariance s (BwCov.call f))._bw_fct = none
      ∧ (set_covariance s (BwCov.call f))._cov_fct = some f
      ∧ (set_covariance s (BwCov.call f))._bandwidth = s._bandwidth
      ∧ (set_covariance s (BwCov.call f))._covariance = s._covariance := by
  intro s v f
  exact ⟨rfl, rfl, rfl, rfl, rfl, rfl, rfl, rfl, rfl, rfl, rfl, rfl, rfl, rfl, rfl, rfl⟩

/-- C3: the claim says `evaluate` round-trips the input rank for scalar,
vector and matrix query points.  On the default call (no output buffer) the
allocation line references the unbound name `y` and raises `NameError`, so
`evaluate(scalar)` does not return a scalar-shaped result; the
promotion/squeeze logic itself behaves as described once a buffer is
supplied, as the remaining conjuncts record (scalar → shape `[]`, length-2
vector → shape `[2]`, 1×2 matrix → shape `[2]`). -/
theorem C3_evaluate_default_out_raises_NameError :
    evaluate meth_id m0 scalarPt none = Except.error (PyErr.nameError "y")
    ∧ evaluate meth_id m0 vec2 none = Except.error (PyErr.nameError "y")
    ∧ (∃ r, evaluate meth_id m0 scalarPt (some buf1) = Except.ok r ∧ r.shape = [])
    ∧ (∃ r, evaluate meth_id m0 vec2 (some buf2) = Except.ok r ∧ r.shape = [2])
    ∧ (∃ r, evaluate meth_id m0 mat12 (some buf2) = Except.ok r ∧ r.shape = [2]) := by
  exact ⟨rfl, rfl, ⟨_, rfl, rfl⟩, ⟨_, rfl, rfl⟩, ⟨_, rfl, rfl⟩⟩

/-- C5: the claim says `evaluate` with `out=None` allocates a length-M
floating-point buffer.  The allocation line
`np.empty((points.shape[-1],), dtype=type(y.dtype.type() + 0.))` references
the unbound name `y` and raises `NameError` instead.  The supplied-buffer
path behaves as claimed: a buffer of size M is reshaped to length M, a buffer
of any other size fails the reshape. -/
theorem C5_out_allocation_raises_NameError :
    evaluate meth_id m0 mat12 none = Except.error (PyErr.nameError "y")
    ∧ (∃ r, evaluate meth_id m0 mat12 (some buf2) = Except.ok r
        ∧ r.shape = [2] ∧ r.data.length = 2)
    ∧ evaluate meth_id m0 mat12 (some buf3)
        = Except.error (PyErr.valueError "cannot reshape array") := by
  exact ⟨rfl, ⟨_, rfl, rfl, rfl⟩, rfl⟩

/-- C6 counterexample: the claim says constructing with rank-3 `xdata` (or
`ydata` not coercible to rank 1) raises `ShapeError`.  It does not:
`__init__` assigns the private attributes directly after `np.atleast_2d` /
`np.atleast_1d`, with no rank assertion, so a 2×2×2 `xdata` and a 2×2
`ydata` are stored unchanged and construction succeeds. -/
theorem C6_rank3_construction_succeeds :
    ∃ s, __init__ x222 y22 [] = Except.ok s ∧ s._xdata = x222 ∧ s._ydata = y22 := by
  exact ⟨_, rfl, rfl, rfl⟩

/-- C6 amended: construction never validates rank — it stores
`np.atleast_2d(xdata)` and `np.atleast_1d(ydata)` as they come (so 1-D
`xdata` is promoted to a single-row matrix and rank-3 input is kept
unchanged, without error); the rank checks the claim describes live in the
`xdata`/`ydata` property setters used for later assignment, which reject
rank-3 `xdata` and rank-2 `ydata` with an assertion failure. -/
theorem C6_construction_skips_rank_validation :
    ∀ (x y : NDArray) (n a b c : Nat) (d : List Val) (s : NonParamRegression),
      (∃ t, __init__ x y [] = Except.ok t
          ∧ t._xdata = np_atleast_2d x ∧ t._ydata = np_atleast_1d y)
      ∧ np_atleast_2d { shape := [n], data := d } = { shape := [1, n], data := d }
      ∧ np_atleast_2d { shape := [a, b, c], data := d } = { shape := [a, b, c], data := d }
      ∧ set_xdata s { shape := [a, b, c], data := d }
          = Except.error (PyErr.assertionError "The xdata must be at most a 2D array")
      ∧ set_ydata s { shape := [a, b], data := d }
          = Except.error (PyErr.assertionError "The ydata must be at most a 1D array") := by
  intro x y n a b c d s
  exact ⟨⟨_, rfl, rfl, rfl⟩, rfl, rfl, rfl, rfl⟩

/-- C7 counterexample: the claim says an unrecognized construction keyword is
a configuration error.  It is not: the `setattr` loop silently creates a new
public instance attribute for it and construction succeeds. -/
theorem C7_unknown_key_accepted :
    ∃ s, __init__ x12 y2 [KwArg.other "plot_color" 7] = Except.ok s
      ∧ s.extra = [("plot_color", 7)] := by
  exact ⟨_, rfl, rfl⟩

/-- C7 amended: a construction keyword matching no property of the class is
silently accepted — `setattr` adds it to the instance dictionary as a new
public attribute and no error is signalled. -/
theorem C7_unknown_keys_silently_accepted :
    ∀ (x y : NDArray) (name : String) (v : Nat),
      ∃ s, __init__ x y [KwArg.other name v] = Except.ok s
        ∧ s.extra = [(name, v)] := by
  intro x y name v
  exact ⟨_, rfl, rfl⟩

/-- C8 counterexample: the claim says the `lower`/`upper` setters accept only
exactly-1-D vectors, scalar input failing.  A scalar is in fact accepted:
`np.atleast_1d` promotes it to a length-1 vector before the rank assertion,
so the assignment succeeds and stores the promoted vector. -/
theorem C8_scalar_bound_accepted :
    set_lower m0 { shape := [], data := [Val.num 7] }
      = Except.ok { m0 with _lower := some { shape := [1], data := [Val.num 7] } } := by
  exact rfl

/-- C8 amended: the bound setters apply `np.atleast_1d` first, so a scalar is
promoted to a length-1 vector and stored, a 1-D vector is stored as given,
and input of any rank ≥ 2 (shape `a :: b :: rest`) fails the rank assertion;
deleting a bound resets it to `None`, the marker `fit` replaces with the
unbounded default. -/
theorem C8_bound_setters_atleast_1d :
    ∀ (s : NonParamRegression) (d : List Val) (n a b : Nat) (rest : List Nat),
      set_lower s { shape := [], data := d }
          = Except.ok { s with _lower := some { shape := [1], data := d } }
      ∧ set_lower s { shape := [n], data := d }
          = Except.ok { s with _lower := some { shape := [n], data := d } }
      ∧ set_lower s { shape := a :: b :: rest, data := d }
          = Except.error (PyErr.assertionError "The lower bound must be at most a 1D array")
      ∧ del_lower s = { s with _lower := none }
      ∧ set_upper s { shape := [], data := d }
          = Except.ok { s with _upper := some { shape := [1], data := d } }
      ∧ set_upper s { shape := [n], data := d }
          = Except.ok { s with _upper := some { shape := [n], data := d } }
      ∧ set_upper s { shape := a :: b :: rest, data := d }
          = Except.error (PyErr.assertionError "The upper bound must be at most a 1D array")
      ∧ del_upper s = { s with _upper := none } := by
  intro s d n a b rest
  refine ⟨rfl, rfl, ?_, rfl, rfl, rfl, ?_, rfl⟩
  · simp [set_lower, np_atleast_1d]
  · simp [set_upper, np_atleast_1d]

/-- An assignment to the `kernel` or the `kernel_class` property. -/
inductive KernelOp where
  | setK : Nat → KernelOp
  | setKC : Nat → KernelOp
  deriving DecidableEq

/-- Apply one kernel-property assignment. -/
def applyKernelOp (s : NonParamRegression) (op : KernelOp) : NonParamRegression :=
  match op with
  | KernelOp.setK k => set_kernel s k
  | KernelOp.setKC k => set_kernel_class s k

/-- At most one of `_kernel` and `_kernel_class` is set. -/
def kernelExclusive (s : NonParamRegression) : Prop :=
  s._kernel = none ∨ s._kernel_class = none

/-- Every single kernel-property assignment leaves the state exclusive,
whatever it started from. -/
lemma kernelExclusive_applyKernelOp (s : NonParamRegression) (op : KernelOp) :
    kernelExclusive (applyKernelOp s op) := by
  cases op with
  | setK k => exact Or.inr rfl
  | setKC k => exact Or.inl rfl

/-- Exclusivity is preserved along any sequence of kernel-property
assignments. -/
lemma kernelExclusive_foldl (ops : List KernelOp) (s : NonParamRegression)
    (h : kernelExclusive s) :
    kernelExclusive (List.foldl applyKernelOp s ops) := by
  induction ops generalizing s with
  | nil => exact h
  | cons op ops ih => exact ih (applyKernelOp s op) (kernelExclusive_applyKernelOp s op)

/-- C9: assigning a kernel instance stores it and clears `_kernel_class`,
assigning a kernel class stores it and clears `_kernel`, and therefore after
any nonempty sequence of such assignments — from any starting state — at most
one of the two attributes is set. -/
theorem C9_kernel_kernel_class_mutually_exclusive :
    ∀ (s : NonParamRegression) (k : Nat) (op : KernelOp) (ops : List KernelOp),
      (set_kernel s k)._kernel_class = none
      ∧ (set_kernel s k)._kernel = some k
      ∧ (set_kernel_class s k)._kernel = none
      ∧ (set_kernel_class s k)._kernel_class = some k
      ∧ kernelExclusive (List.foldl applyKernelOp s (op :: ops)) := by
  intro s k op ops
  refine ⟨rfl, rfl, rfl, rfl, ?_⟩
  exact kernelExclusive_foldl ops (applyKernelOp s op) (kernelExclusive_applyKernelOp s op)

/-- Every attribute a private name maps to in the original dictionary appears
in the copy, transferred through `copyAttr`. -/
lemma mem_copy_dict_of_mem {d : List (String × PyObjRef)} {m : String} {obj : PyObjRef}
    (hmem : (m, obj) ∈ d) (hpriv : isPrivateName m = true) :
    (m, copyAttr obj) ∈ copy_dict d := by
  induction d with
  | nil => cases hmem
  | cons hd tl ih =>
    obtain ⟨m', o'⟩ := hd
    rcases List.mem_cons.1 hmem with heq | htl
    · obtain ⟨hm, ho⟩ := Prod.mk.injEq .. ▸ heq
      subst hm
      subst ho
      simp only [copy_dict, hpriv, if_true]
      exact List.mem_cons_self _ _
    · by_cases hp : isPrivateName m' = true
      · simp only [copy_dict, hp, if_true]
        exact List.mem_cons_of_mem _ (ih htl)
      · simp only [copy_dict, hp, if_false]
        exact ih htl

/-- Conversely, every entry of the copy comes from a private-named attribute
of the original, transferred through `copyAttr`; in particular no
public-named attribute of the original reaches the copy. -/
lemma of_mem_copy_dict {d : List (String × PyObjRef)} {m : String} {v : CopiedVal}
    (hmem : (m, v) ∈ copy_dict d) :
    isPrivateName m = true ∧ ∃ o, (m, o) ∈ d ∧ v = copyAttr o := by
  induction d with
  | nil => cases hmem
  | cons hd tl ih =>
    obtain ⟨m', o'⟩ := hd
    by_cases hp : isPrivateName m' = true
    · rw [copy_dict, if_pos hp] at hmem
      rcases List.mem_cons.1 hmem with heq | htl
      · obtain ⟨hm, hv⟩ := Prod.mk.injEq .. ▸ heq
        subst hm
        exact ⟨hp, o', List.mem_cons_self _ _, hv⟩
      · obtain ⟨hpriv, o, ho, hv⟩ := ih htl
        exact ⟨hpriv, o, List.mem_cons_of_mem _ ho, hv⟩
    · rw [copy_dict, if_neg hp] at hmem
      obtain ⟨hpriv, o, ho, hv⟩ := ih hmem
      exact ⟨hpriv, o, List.mem_cons_of_mem _ ho, hv⟩

/-- C10: `copy()` transfers exactly the attributes whose names start with a
single underscore: each such attribute of the original appears in the copy —
as a fresh clone when the object has a `copy` method, as the same shared
reference otherwise — and every entry of the copy arises this way, so an
attribute with a public name (for instance one created by the `setattr` loop
for an unrecognized construction keyword) is absent from the copy. -/
theorem C10_copy_transfers_exactly_private_attributes :
    ∀ (d : List (String × PyObjRef)) (m : String) (obj : PyObjRef) (v : CopiedVal),
      ((m, obj) ∈ d → isPrivateName m = true → (m, copyAttr obj) ∈ copy_dict d)
      ∧ ((m, v) ∈ copy_dict d → isPrivateName m = true ∧ ∃ o, (m, o) ∈ d ∧ v = copyAttr o) := by
  intro d m obj v
  exact ⟨fun hmem hpriv => mem_copy_dict_of_mem hmem hpriv, fun hmem => of_mem_copy_dict hmem⟩

/-- C10 witness: on the two-entry dictionary holding the private `_xdata`
(with a `copy` method) and the public `plot_color`, the theorem puts the
clone of `_xdata` in the copy. -/
theorem C10_copy_transfers_exactly_private_attributes_witness :
    ("_xdata", CopiedVal.cloneOf 0) ∈
      copy_dict [("_xdata", { addr := 0, hasCopy := true }),
                 ("plot_color", { addr := 1, hasCopy := true })] :=
  (C10_copy_transfers_exactly_private_attributes
      [("_xdata", { addr := 0, hasCopy := true }),
       ("plot_color", { addr := 1, hasCopy := true })]
      "_xdata" { addr := 0, hasCopy := true } (CopiedVal.cloneOf 0)).1
    (List.mem_cons_self _ _) (by rfl)
